import Mathlib

/- Shallow embedding of src/index.js: a Stripe failed-payment webhook monitor.
   External effects (signature verification, nodemailer sendMail, Airtable
   record creation, clocks) are modelled by oracles in an environment `Env`;
   the mutable process state (log buffer, sink invocations, sent mails,
   created records) is threaded explicitly through a state record `St`. -/

namespace StripeMonitor

/-- Log levels used by the `log` function in src/index.js (default info). -/
inductive Level where
  | info
  | error
deriving DecidableEq, Repr

/-- One entry of the diagnostic log buffer (src/index.js lines 31-35). -/
structure LogEntry where
  timestamp : String
  level : Level
  message : String
deriving DecidableEq, Repr

/-- The buffer update performed by `log` (src/index.js lines 30-43):
push the entry, then shift the oldest entry off when the length
exceeds 100 ("Keep only last 100 logs"). -/
def logPush (logs : List LogEntry) (entry : LogEntry) : List LogEntry :=
  let pushed := logs.concat entry
  if pushed.length > 100 then pushed.tail else pushed

/-- The raw provider payload `event.data.object`. Every field can be absent
in the incoming JSON; `none` models a missing / undefined field. -/
structure RawPayload where
  id : Option String
  amount : Option Int
  currency : Option String
  customer_email : Option String
  customer : Option String
  failure_code : Option String
  failure_message : Option String
  description : Option String
  sourceType : Option String
deriving DecidableEq, Repr

/-- The `data` wrapper of the provider event envelope. -/
structure EventData where
  object : RawPayload
deriving DecidableEq, Repr

/-- The provider event envelope: a type discriminant and a nested payload. -/
structure IncomingEvent where
  type : String
  data : EventData
deriving DecidableEq, Repr

/-- JavaScript string interpolation of a possibly-undefined value:
`undefined` renders as the literal text "undefined". -/
def jsStr : Option String → String
  | none => "undefined"
  | some s => s

/-- JavaScript `x || \x27N/A\x27` on a possibly-missing string field:
undefined and the empty string are falsy, so both fall back to "N/A". -/
def orNA : Option String → String
  | none => "N/A"
  | some s => if s = "" then "N/A" else s

/-- JavaScript `s.toUpperCase()` on a present string, modelled characterwise
(extensionally the same as String.toUpper, but it evaluates by kernel
reduction). -/
def jsToUpper (s : String) : String := ⟨s.data.map Char.toUpper⟩

/-- JavaScript `(n / 100).toFixed(2)` for an integer amount of minor units. -/
def toFixed2 (n : Int) : String :=
  let sign := if n < 0 then "-" else ""
  let m := n.natAbs
  sign ++ toString (m / 100) ++ "." ++ (if m % 100 < 10 then "0" else "") ++ toString (m % 100)

/-- JavaScript `(amount / 100).toFixed(2)` when amount may be undefined:
`undefined / 100` is NaN and `NaN.toFixed(2)` is the string "NaN". -/
def jsToFixed2 : Option Int → String
  | none => "NaN"
  | some n => toFixed2 n

/-- The message of the TypeError raised by `paymentData.currency.toUpperCase()`
when `currency` is undefined. -/
def undefinedToUpperMsg : String :=
  "Cannot read properties of undefined (reading \x27toUpperCase\x27)"

/-- A value stored in an Airtable record field: a string, a JavaScript
number (as a rational), NaN, or undefined. -/
inductive FieldVal where
  | str (s : String)
  | num (v : Rat)
  | nan
  | undef
deriving DecidableEq, Repr

/-- JavaScript interpolation of `paymentData.id` as an Airtable field value. -/
def jsField : Option String → FieldVal
  | none => .undef
  | some s => .str s

/-- The value `(paymentData.amount / 100)` stored in the Amount field:
NaN when the amount is undefined, otherwise the exact quotient. -/
def amountField : Option Int → FieldVal
  | none => .nan
  | some n => .num ((n : Rat) / 100)

/-- An Airtable record created by `base(\x27Failed Payments\x27).create`:
the id returned by Airtable plus the submitted fields. -/
structure SinkRecord where
  recordId : String
  fields : List (String × FieldVal)
deriving DecidableEq, Repr

/-- A mail passed to `transporter.sendMail` (src/index.js lines 74-79). -/
structure Mail where
  fromAddr : String
  toAddr : String
  subject : String
  html : String
deriving DecidableEq, Repr

/-- Which sink function was entered, in invocation order. -/
inductive SinkCall where
  | email
  | record
deriving DecidableEq, Repr

/-- The observable mutable state of the process: the log buffer, the order
in which the two sink functions were entered, every mail handed to
`transporter.sendMail`, the number of Airtable create calls, and the
records those calls created. -/
structure St where
  logs : List LogEntry
  trace : List SinkCall
  emails : List Mail
  recordsAttempted : Nat
  recordsCreated : List SinkRecord
deriving DecidableEq, Repr

/-- The state at process start: empty buffer, no sink activity. -/
def St.init : St :=
  { logs := [], trace := [], emails := [], recordsAttempted := 0, recordsCreated := [] }

/-- The environment: configuration and the outcomes of the external
collaborators (Stripe signature verification, nodemailer, Airtable)
together with the clock readings used while handling one request. -/
structure Env where
  secret : Option String
  constructEvent : Except String IncomingEvent
  emailOutcome : Except String Unit
  recordOutcome : Except String String
  gmailUser : String
  nowIso : String
  nowLocale : String
  nowMillis : Nat

/-- The HTML body built in sendFailedPaymentAlert (src/index.js lines 59-72),
after `currency.toUpperCase()` has succeeded with uppercase result of `c`. -/
def emailContentHtml (env : Env) (p : RawPayload) (c : String) : String :=
  let t := env.nowLocale
  let amt := jsToFixed2 p.amount
  let cur := jsToUpper c
  let em := orNA p.customer_email
  let cid := orNA p.customer
  let pid := jsStr p.id
  let fc := orNA p.failure_code
  let fm := orNA p.failure_message
  let ds := orNA p.description
  s!"<h2>🚨 Payment Failed Alert</h2>\n<p><strong>Time:</strong> {t}</p>\n<p><strong>Amount:</strong> ${amt} {cur}</p>\n<p><strong>Customer:</strong> {em}</p>\n<p><strong>Customer ID:</strong> {cid}</p>\n<p><strong>Payment ID:</strong> {pid}</p>\n<p><strong>Failure Code:</strong> {fc}</p>\n<p><strong>Failure Message:</strong> {fm}</p>\n<p><strong>Description:</strong> {ds}</p>\n<hr>\n<p><small>This is an automated alert from your Stripe Payment Monitor</small></p>"

/-- The Email Sink, `sendFailedPaymentAlert` (src/index.js lines 57-86).
Building the mail content dereferences `paymentData.currency`, which throws
when currency is undefined; that error, and any error from
`transporter.sendMail`, is caught by the surrounding try/catch, logged at
error level, and swallowed: the function always returns normally. -/
def sendFailedPaymentAlert (env : Env) (st : St) (p : RawPayload) : St :=
  let st1 := { st with trace := st.trace.concat .email }
  match p.currency with
  | none =>
    { st1 with logs := (logPush st1.logs ⟨env.nowIso, .error, "Error sending Gmail alert: " ++ undefinedToUpperMsg⟩) }
  | some c =>
    let mail : Mail :=
      { fromAddr := env.gmailUser
        toAddr := env.gmailUser
        subject := "🚨 Payment Failed: $" ++ jsToFixed2 p.amount
        html := emailContentHtml env p c }
    let st2 := { st1 with emails := st1.emails.concat mail }
    match env.emailOutcome with
    | .error m =>
      { st2 with logs := (logPush st2.logs ⟨env.nowIso, .error, "Error sending Gmail alert: " ++ m⟩) }
    | .ok _ =>
      { st2 with logs := (logPush st2.logs ⟨env.nowIso, .info, "Failed payment alert sent via Gmail for payment " ++ jsStr p.id⟩) }

/-- The fields submitted to Airtable for a production failed payment
(src/index.js lines 92-106), after `currency.toUpperCase()` succeeded. -/
def productionFields (env : Env) (p : RawPayload) (c : String) : List (String × FieldVal) :=
  [("Payment ID", jsField p.id),
   ("Amount", amountField p.amount),
   ("Currency", .str (jsToUpper c)),
   ("Customer Email", .str (orNA p.customer_email)),
   ("Customer ID", .str (orNA p.customer)),
   ("Failure Code", .str (orNA p.failure_code)),
   ("Failure Message", .str (orNA p.failure_message)),
   ("Description", .str (orNA p.description)),
   ("Failed At", .str env.nowIso),
   ("Status", .str "Failed"),
   ("Source", .str (orNA p.sourceType))]

/-- The Record Sink, `updateAirtableFailedPayment` (src/index.js lines 89-115).
Building the fields dereferences `paymentData.currency` (throws when
undefined, before the create call is reached); any error, from the field
construction or from the Airtable create, is caught, logged at error level,
and re-thrown to the caller. -/
def updateAirtableFailedPayment (env : Env) (st : St) (p : RawPayload) :
    St × Except String SinkRecord :=
  let st1 := { st with trace := st.trace.concat .record }
  match p.currency with
  | none =>
    ({ st1 with logs := (logPush st1.logs ⟨env.nowIso, .error, "Error creating Airtable record: " ++ undefinedToUpperMsg⟩) },
     .error undefinedToUpperMsg)
  | some c =>
    let st2 := { st1 with recordsAttempted := st1.recordsAttempted + 1 }
    match env.recordOutcome with
    | .error m =>
      ({ st2 with logs := (logPush st2.logs ⟨env.nowIso, .error, "Error creating Airtable record: " ++ m⟩) },
       .error m)
    | .ok rid =>
      let r : SinkRecord := { recordId := rid, fields := productionFields env p c }
      ({ st2 with
          recordsCreated := st2.recordsCreated.concat r
          logs := (logPush st2.logs ⟨env.nowIso, .info, "Failed payment record created in Airtable: " ++ rid⟩) },
       .ok r)

/-- The failure-processing routine `processFailedPayment`
(src/index.js lines 118-134): log, email sink, record sink; an error from
the record sink is logged and re-thrown. -/
def processFailedPayment (env : Env) (st : St) (ev : IncomingEvent) :
    St × Except String Unit :=
  let p := ev.data.object
  let st1 := { st with logs := (logPush st.logs ⟨env.nowIso, .info,
       "Processing failed payment: " ++ jsStr p.id ++ ", Amount: $" ++ jsToFixed2 p.amount⟩) }
  let st2 := sendFailedPaymentAlert env st1 p
  match updateAirtableFailedPayment env st2 p with
  | (st3, .error m) =>
    ({ st3 with logs := (logPush st3.logs ⟨env.nowIso, .error, "Error processing failed payment: " ++ m⟩) },
     .error m)
  | (st3, .ok _) =>
    ({ st3 with logs := (logPush st3.logs ⟨env.nowIso, .info, "Successfully processed failed payment: " ++ jsStr p.id⟩) },
     .ok ())

/-- An inbound webhook request: the raw body bytes, the provider signature
header, and the outcome of `JSON.parse` on the raw body (an external
library function, carried as an oracle). -/
structure Request where
  body : String
  signature : Option String
  parseResult : Except String IncomingEvent

/-- The verification stage of the webhook handler (src/index.js lines
217-222): with a configured secret, delegate to
`stripe.webhooks.constructEvent`; without one, trust `JSON.parse` of the
raw body. -/
def verifyStage (env : Env) (req : Request) : Except String IncomingEvent :=
  match env.secret with
  | some _ => env.constructEvent
  | none => req.parseResult

/-- The response of the webhook endpoint: 200 with body `received: true`,
or 400 with body "Webhook error: " followed by the underlying message. -/
inductive WebhookResponse where
  | received
  | webhookError (msg : String)
deriving DecidableEq, Repr

/-- The HTTP status code of a webhook response. -/
def WebhookResponse.status : WebhookResponse → Nat
  | .received => 200
  | .webhookError _ => 400

/-- The event types the switch at src/index.js lines 227-242 routes to
`processFailedPayment`. -/
def failureEventTypes : List String :=
  ["charge.failed", "payment_intent.payment_failed",
   "invoice.payment_failed", "payment_method.attach_failed"]

/-- The webhook handler, `app.post(\x27/webhook\x27)` (src/index.js lines
212-249): verify, log the received type, dispatch by type, acknowledge; any
error is caught, logged at error level, and answered with a 400. -/
def webhook (env : Env) (st : St) (req : Request) : St × WebhookResponse :=
  match verifyStage env req with
  | .error m =>
    ({ st with logs := logPush st.logs ⟨env.nowIso, .error, "Webhook error: " ++ m⟩ },
     .webhookError m)
  | .ok event =>
    let st1 := { st with logs := (logPush st.logs ⟨env.nowIso, .info, "Received Stripe webhook: " ++ event.type⟩) }
    if event.type ∈ failureEventTypes then
      match processFailedPayment env st1 event with
      | (st2, .error m) =>
        ({ st2 with logs := logPush st2.logs ⟨env.nowIso, .error, "Webhook error: " ++ m⟩ },
         .webhookError m)
      | (st2, .ok _) => (st2, .received)
    else
      ({ st1 with logs := (logPush st1.logs ⟨env.nowIso, .info, "Unhandled event type: " ++ event.type⟩) },
       .received)

/-- The response of the test endpoint: 200 with per-sink success text, or
500 with `success: false` and the underlying error message. -/
inductive TestResponse where
  | success (message gmailTest airtableTest : String)
  | failure (error : String)
deriving DecidableEq, Repr

/-- The HTTP status code of a test response. -/
def TestResponse.status : TestResponse → Nat
  | .success _ _ _ => 200
  | .failure _ => 500

/-- The fixed mail sent by the test endpoint (src/index.js lines 172-177). -/
def testMail (env : Env) : Mail :=
  { fromAddr := env.gmailUser
    toAddr := env.gmailUser
    subject := "Test: Stripe Payment Monitor is Working"
    html := "<p>This is a test email to confirm your Stripe Payment Monitor is working correctly!</p>" }

/-- The fields of the synthetic test record (src/index.js lines 180-193). -/
def testFields (env : Env) : List (String × FieldVal) :=
  [("Payment ID", .str ("TEST_" ++ toString env.nowMillis)),
   ("Amount", .num ((9999 : Rat) / 100)),
   ("Currency", .str "USD"),
   ("Customer Email", .str "test@example.com"),
   ("Failure Code", .str "TEST"),
   ("Failure Message", .str "This is a test record"),
   ("Failed At", .str env.nowIso),
   ("Status", .str "Test")]

/-- The test harness, `app.post(\x27/test\x27)` (src/index.js lines 167-209):
send a test mail, then create a test record; the first error aborts the
rest of the try block and surfaces as a 500 response. -/
def testHandler (env : Env) (st : St) : St × TestResponse :=
  let st1 := { st with logs := logPush st.logs ⟨env.nowIso, .info, "Manual test run initiated"⟩ }
  let st2 := { st1 with emails := st1.emails.concat (testMail env) }
  match env.emailOutcome with
  | .error m =>
    ({ st2 with logs := logPush st2.logs ⟨env.nowIso, .error, "Manual test failed: " ++ m⟩ },
     .failure m)
  | .ok _ =>
    let st3 := { st2 with recordsAttempted := st2.recordsAttempted + 1 }
    match env.recordOutcome with
    | .error m =>
      ({ st3 with logs := logPush st3.logs ⟨env.nowIso, .error, "Manual test failed: " ++ m⟩ },
       .failure m)
    | .ok rid =>
      let r : SinkRecord := { recordId := rid, fields := testFields env }
      let st4 := { st3 with
          recordsCreated := st3.recordsCreated.concat r
          logs := logPush st3.logs ⟨env.nowIso, .info, "Manual test completed successfully"⟩ }
      (st4, .success "Test completed successfully" "Email sent" ("Record created: " ++ rid))

/-- The normalized failure payment of the spec data model. -/
structure FailurePayment where
  id : String
  amountMinorUnits : Option Int
  displayAmount : String
  currency : String
  customerEmail : String
  customerId : String
  failureCode : String
  failureMessage : String
  description : String
  sourceType : String
deriving DecidableEq, Repr

/-- The Payload Normalizer of the spec: the field extraction that both sinks
perform inline (src/index.js lines 59-79 and 91-107). The access
`paymentData.currency.toUpperCase()` is not defensive: it throws a
TypeError when currency is undefined, so the extraction is fallible. -/
def normalize (p : RawPayload) : Except String FailurePayment :=
  match p.currency with
  | none => .error undefinedToUpperMsg
  | some c =>
    .ok { id := jsStr p.id
          amountMinorUnits := p.amount
          displayAmount := jsToFixed2 p.amount
          currency := jsToUpper c
          customerEmail := orNA p.customer_email
          customerId := orNA p.customer
          failureCode := orNA p.failure_code
          failureMessage := orNA p.failure_message
          description := orNA p.description
          sourceType := orNA p.sourceType }


/- Concrete inputs used by scenario theorems, counterexamples and witnesses. -/

/-- A raw payload in which every field is absent. -/
def rawEmpty : RawPayload :=
  { id := none, amount := none, currency := none, customer_email := none,
    customer := none, failure_code := none, failure_message := none,
    description := none, sourceType := none }

/-- The round-trip payload of the spec: amount 4999 minor units, currency "usd". -/
def roundTripPayload : RawPayload :=
  { rawEmpty with id := some "ch_1", amount := some 4999, currency := some "usd" }

/-- An environment with no webhook secret and both sinks succeeding. -/
def envPlain : Env :=
  { secret := none, constructEvent := .error "unused", emailOutcome := .ok (),
    recordOutcome := .ok "recA", gmailUser := "g@example.com", nowIso := "T",
    nowLocale := "L", nowMillis := 7 }

/-- A verified event of the unrecognized type "customer.created". -/
def evUnknown : IncomingEvent := ⟨"customer.created", ⟨rawEmpty⟩⟩

/-- A request whose body parses to `evUnknown`. -/
def reqUnknown : Request := ⟨"body", none, .ok evUnknown⟩

/-- A recognized failed-charge event carrying the round-trip payload. -/
def evCharge : IncomingEvent := ⟨"charge.failed", ⟨roundTripPayload⟩⟩

/-- A request whose body parses to `evCharge`. -/
def reqCharge : Request := ⟨"body", none, .ok evCharge⟩

/-- A sample log entry. -/
def entA : LogEntry := ⟨"T0", .info, "m0"⟩

/-- Another sample log entry. -/
def entB : LogEntry := ⟨"T1", .error, "m1"⟩

/- Helper lemmas. -/

/-- Appending to the buffer always leaves the new entry at the back. -/
theorem getLast_logPush (l : List LogEntry) (e : LogEntry) :
    (logPush l e).getLast? = some e := by
  unfold logPush
  simp only [List.concat_eq_append]
  split
  next hgt =>
    cases l with
    | nil => simp at hgt
    | cons a as => simp [List.getLast?_concat]
  next => simp [List.getLast?_concat]

/-- Both sink functions append their trace marks regardless of payload shape
and sink outcomes: the record sink is always entered after the email sink. -/
theorem trace_processFailedPayment (env : Env) (st : St) (ev : IncomingEvent) :
    (processFailedPayment env st ev).1.trace = st.trace ++ [.email, .record] := by
  cases hc : ev.data.object.currency <;>
    cases he : env.emailOutcome <;>
      cases hr : env.recordOutcome <;>
        simp [processFailedPayment, sendFailedPaymentAlert, updateAirtableFailedPayment,
              hc, he, hr, List.concat_eq_append]

/- Claim theorems. -/

/-- C4: after every append the log buffer holds at most 100 entries, and an
append to a buffer holding exactly 100 entries evicts exactly the oldest
entry while preserving the relative order of the remaining 100. -/
theorem log_buffer_bound_and_fifo (l : List LogEntry) (e : LogEntry) :
    (l.length ≤ 100 → (logPush l e).length ≤ 100) ∧
    (l.length = 100 → logPush l e = l.tail ++ [e]) := by
  constructor
  · intro h
    unfold logPush
    simp only [List.concat_eq_append, List.length_append, List.length_cons, List.length_nil]
    split
    · simp only [List.length_tail, List.length_append, List.length_cons, List.length_nil]
      omega
    · next hle =>
      simp only [not_lt, List.length_append, List.length_cons, List.length_nil] at hle
      simpa using hle
  · intro h
    have hne : l ≠ [] := by
      intro hl
      rw [hl] at h
      simp at h
    obtain ⟨a, as, rfl⟩ := List.exists_cons_of_ne_nil hne
    simp only [List.length_cons] at h
    have h99 : as.length = 99 := by omega
    simp [logPush, List.concat_eq_append, h99]

/-- Witness for C4 at a buffer of exactly 100 entries. -/
theorem log_buffer_bound_and_fifo_witness :
    (logPush (List.replicate 100 entA) entB).length ≤ 100 ∧
    logPush (List.replicate 100 entA) entB = (List.replicate 100 entA).tail ++ [entB] :=
  ⟨(log_buffer_bound_and_fifo (List.replicate 100 entA) entB).1 (by simp),
   (log_buffer_bound_and_fifo (List.replicate 100 entA) entB).2 (by simp)⟩

/-- C8: the payload with amount 4999 minor units and currency "usd"
normalizes to display amount "49.99" and currency "USD". -/
theorem amount_currency_roundtrip :
    (normalize roundTripPayload).toOption.map (fun fp => (fp.displayAmount, fp.currency)) =
      some ("49.99", "USD") := by decide


/-- C1: for a verified recognized event whose payload carries a currency,
when the email send fails and the record create succeeds, the email error
is contained: the webhook still answers 200 received, the log buffer holds
an error entry for the email failure, and a record is still created. -/
theorem email_sink_failure_contained (env : Env) (req : Request) (ev : IncomingEvent)
    (m c rid : String)
    (hv : verifyStage env req = .ok ev)
    (ht : ev.type ∈ failureEventTypes)
    (he : env.emailOutcome = .error m)
    (hr : env.recordOutcome = .ok rid)
    (hc : ev.data.object.currency = some c) :
    (webhook env St.init req).2 = .received ∧
    (webhook env St.init req).2.status = 200 ∧
    (⟨env.nowIso, .error, "Error sending Gmail alert: " ++ m⟩ : LogEntry) ∈
      (webhook env St.init req).1.logs ∧
    (webhook env St.init req).1.recordsCreated.length = 1 := by
  simp [webhook, hv, ht, he, hr, hc, processFailedPayment, sendFailedPaymentAlert,
        updateAirtableFailedPayment, logPush, St.init, WebhookResponse.status]

/-- Witness for C1: a failed charge with a failing mailer and a working
datastore. -/
theorem email_sink_failure_contained_witness :
    (webhook { envPlain with emailOutcome := .error "smtp down" } St.init reqCharge).2 =
        .received ∧
    (webhook { envPlain with emailOutcome := .error "smtp down" } St.init reqCharge).2.status = 200 ∧
    (⟨"T", .error, "Error sending Gmail alert: " ++ "smtp down"⟩ : LogEntry) ∈
      (webhook { envPlain with emailOutcome := .error "smtp down" } St.init reqCharge).1.logs ∧
    (webhook { envPlain with emailOutcome := .error "smtp down" } St.init reqCharge).1.recordsCreated.length = 1 :=
  email_sink_failure_contained { envPlain with emailOutcome := .error "smtp down" }
    reqCharge evCharge "smtp down" "usd" "recA" rfl (by decide) rfl rfl rfl

/-- C2: for a verified recognized event whose payload carries a currency,
an error from the record create is logged at error level and re-thrown all
the way to the webhook handler, which answers 400 with the underlying
message; when the mailer succeeded, the alert mail had already been sent. -/
theorem record_sink_failure_propagates (env : Env) (req : Request) (ev : IncomingEvent)
    (m c : String)
    (hv : verifyStage env req = .ok ev)
    (ht : ev.type ∈ failureEventTypes)
    (hr : env.recordOutcome = .error m)
    (hc : ev.data.object.currency = some c) :
    (webhook env St.init req).2 = .webhookError m ∧
    (webhook env St.init req).2.status = 400 ∧
    (⟨env.nowIso, .error, "Error creating Airtable record: " ++ m⟩ : LogEntry) ∈
      (webhook env St.init req).1.logs ∧
    (env.emailOutcome = .ok () → (webhook env St.init req).1.emails.length = 1) := by
  cases he : env.emailOutcome <;>
    simp [webhook, hv, ht, hr, hc, he, processFailedPayment, sendFailedPaymentAlert,
          updateAirtableFailedPayment, logPush, St.init, WebhookResponse.status]

/-- Witness for C2: a failed charge with a working mailer and a failing
datastore. -/
theorem record_sink_failure_propagates_witness :
    (webhook { envPlain with recordOutcome := .error "airtable 503" } St.init reqCharge).2 =
        .webhookError "airtable 503" ∧
    (webhook { envPlain with recordOutcome := .error "airtable 503" } St.init reqCharge).2.status = 400 ∧
    (⟨"T", .error, "Error creating Airtable record: " ++ "airtable 503"⟩ : LogEntry) ∈
      (webhook { envPlain with recordOutcome := .error "airtable 503" } St.init reqCharge).1.logs ∧
    ({ envPlain with recordOutcome := .error "airtable 503" }.emailOutcome = .ok () →
      (webhook { envPlain with recordOutcome := .error "airtable 503" } St.init reqCharge).1.emails.length = 1) :=
  record_sink_failure_propagates { envPlain with recordOutcome := .error "airtable 503" }
    reqCharge evCharge "airtable 503" "usd" rfl (by decide) rfl rfl

/-- C3: for every verified event, a recognized type enters both sink
functions in the fixed order email then record, while any other type string
enters neither sink and is acknowledged with 200 received. -/
theorem dispatcher_routing (env : Env) (st : St) (req : Request) (ev : IncomingEvent)
    (hv : verifyStage env req = .ok ev) :
    (ev.type ∈ failureEventTypes →
      (webhook env st req).1.trace = st.trace ++ [.email, .record]) ∧
    (ev.type ∉ failureEventTypes →
      (webhook env st req).1.trace = st.trace ∧
      (webhook env st req).2 = .received ∧
      (webhook env st req).2.status = 200) := by
  constructor
  · intro ht
    have htr := trace_processFailedPayment env
      { st with logs := (logPush st.logs ⟨env.nowIso, .info, "Received Stripe webhook: " ++ ev.type⟩) } ev
    rcases hp : processFailedPayment env
      { st with logs := (logPush st.logs ⟨env.nowIso, .info, "Received Stripe webhook: " ++ ev.type⟩) } ev
      with ⟨st2, r⟩
    rw [hp] at htr
    cases r <;> simp [webhook, hv, ht, hp] <;> exact htr
  · intro ht
    simp [webhook, hv, ht, WebhookResponse.status]

/-- Witness for C3 at a recognized and at an unrecognized event. -/
theorem dispatcher_routing_witness :
    (webhook envPlain St.init reqCharge).1.trace = St.init.trace ++ [.email, .record] ∧
    ((webhook envPlain St.init reqUnknown).1.trace = St.init.trace ∧
      (webhook envPlain St.init reqUnknown).2 = .received ∧
      (webhook envPlain St.init reqUnknown).2.status = 200) :=
  ⟨(dispatcher_routing envPlain St.init reqCharge evCharge rfl).1 (by decide),
   (dispatcher_routing envPlain St.init reqUnknown evUnknown rfl).2 (by decide)⟩

/-- C5 counterexample: on a payload with no currency field the inline
normalization is not total: it raises the TypeError of
`undefined.toUpperCase()`, and the record sink propagates exactly that
error instead of producing a normalized record. -/
theorem normalize_not_total_counterexample :
    normalize rawEmpty = .error undefinedToUpperMsg ∧
    (updateAirtableFailedPayment envPlain St.init rawEmpty).2 = .error undefinedToUpperMsg := by
  constructor
  · rfl
  · rfl

/-- C5 amended: normalization is defensive with the "N/A" fallback on the
six optional fields only; it is total exactly on payloads that carry a
currency, where every optional field absent in the input renders as "N/A",
never as null or undefined. -/
theorem normalize_defensive_on_optional_fields (p : RawPayload) (c : String)
    (hc : p.currency = some c) :
    ∃ fp, normalize p = .ok fp ∧
      (p.customer_email = none → fp.customerEmail = "N/A") ∧
      (p.customer = none → fp.customerId = "N/A") ∧
      (p.failure_code = none → fp.failureCode = "N/A") ∧
      (p.failure_message = none → fp.failureMessage = "N/A") ∧
      (p.description = none → fp.description = "N/A") ∧
      (p.sourceType = none → fp.sourceType = "N/A") := by
  simp only [normalize, hc]
  refine ⟨_, rfl, ?_, ?_, ?_, ?_, ?_, ?_⟩ <;>
    (intro h; simp [h, orNA])

/-- Witness for the amended C5 at a payload carrying only a currency. -/
theorem normalize_defensive_on_optional_fields_witness :
    ∃ fp, normalize { rawEmpty with currency := some "usd" } = .ok fp ∧
      ({ rawEmpty with currency := some "usd" }.customer_email = none → fp.customerEmail = "N/A") ∧
      ({ rawEmpty with currency := some "usd" }.customer = none → fp.customerId = "N/A") ∧
      ({ rawEmpty with currency := some "usd" }.failure_code = none → fp.failureCode = "N/A") ∧
      ({ rawEmpty with currency := some "usd" }.failure_message = none → fp.failureMessage = "N/A") ∧
      ({ rawEmpty with currency := some "usd" }.description = none → fp.description = "N/A") ∧
      ({ rawEmpty with currency := some "usd" }.sourceType = none → fp.sourceType = "N/A") :=
  normalize_defensive_on_optional_fields { rawEmpty with currency := some "usd" } "usd" rfl

/-- C6 counterexample: for the payload with amount 4999 the created record
stores 49.99 in the numeric Amount field, not the raw minor-unit integer
4999: the division by 100 is applied to the sink record as well. -/
theorem record_amount_not_raw_counterexample :
    ((updateAirtableFailedPayment envPlain St.init roundTripPayload).1.recordsCreated.map
        (fun r => r.fields.lookup "Amount")) = [some (FieldVal.num ((4999 : Rat) / 100))] ∧
    FieldVal.num ((4999 : Rat) / 100) ≠ FieldVal.num (4999 : Rat) := by
  constructor
  · rfl
  · intro h
    have hq : ((4999 : Rat) / 100) = (4999 : Rat) := by injection h
    norm_num at hq

/-- Looking up the Amount key in the production fields yields the divided
amount value. -/
theorem lookup_amount_productionFields (env : Env) (p : RawPayload) (c : String) :
    (productionFields env p c).lookup "Amount" = some (amountField p.amount) := rfl

/-- C6 amended: the amount is divided by 100 in both outputs: the email
subject formats it to two decimals, and the numeric Amount field of the
created record holds the quotient amount/100 rather than the raw
minor-unit integer. -/
theorem amount_divided_everywhere (env : Env) (st : St) (p : RawPayload) (a : Int)
    (c rid : String)
    (ha : p.amount = some a) (hc : p.currency = some c)
    (hr : env.recordOutcome = .ok rid) :
    (sendFailedPaymentAlert env st p).emails.map Mail.subject =
      st.emails.map Mail.subject ++ ["🚨 Payment Failed: $" ++ toFixed2 a] ∧
    (updateAirtableFailedPayment env st p).1.recordsCreated.map
        (fun r => r.fields.lookup "Amount") =
      st.recordsCreated.map (fun r => r.fields.lookup "Amount") ++
        [some (FieldVal.num ((a : Rat) / 100))] := by
  cases he : env.emailOutcome <;>
    simp [sendFailedPaymentAlert, updateAirtableFailedPayment, ha, hc, hr, he,
          jsToFixed2, lookup_amount_productionFields, amountField, List.concat_eq_append]

/-- Witness for the amended C6 at the round-trip payload. -/
theorem amount_divided_everywhere_witness :
    (sendFailedPaymentAlert envPlain St.init roundTripPayload).emails.map Mail.subject =
      St.init.emails.map Mail.subject ++ ["🚨 Payment Failed: $" ++ toFixed2 4999] ∧
    (updateAirtableFailedPayment envPlain St.init roundTripPayload).1.recordsCreated.map
        (fun r => r.fields.lookup "Amount") =
      St.init.recordsCreated.map (fun r => r.fields.lookup "Amount") ++
        [some (FieldVal.num ((4999 : Rat) / 100))] :=
  amount_divided_everywhere envPlain St.init roundTripPayload 4999 "usd" "recA" rfl rfl rfl

/-- C7 counterexample: for the verified event of type "customer.created"
the response is 200 received and no sink runs, but the log buffer gains
two info entries (the received-webhook line and the unhandled-type line),
not exactly one. -/
theorem unknown_event_two_logs_counterexample :
    (webhook envPlain St.init reqUnknown).2 = .received ∧
    (webhook envPlain St.init reqUnknown).1.trace = [] ∧
    (webhook envPlain St.init reqUnknown).1.logs.map LogEntry.level = [.info, .info] ∧
    (webhook envPlain St.init reqUnknown).1.logs.length ≠ 1 := by
  refine ⟨rfl, rfl, rfl, by decide⟩

/-- C7 amended: for a verified event of type "customer.created" the
response is 200 received, no sink is invoked, and the log buffer gains
exactly two info-level entries: the received-webhook entry and the
unhandled-event-type entry. -/
theorem unknown_event_scenario (env : Env) (req : Request) (ev : IncomingEvent)
    (hv : verifyStage env req = .ok ev)
    (hty : ev.type = "customer.created") :
    (webhook env St.init req).2 = .received ∧
    (webhook env St.init req).2.status = 200 ∧
    (webhook env St.init req).1.trace = [] ∧
    (webhook env St.init req).1.logs =
      [⟨env.nowIso, .info, "Received Stripe webhook: " ++ ev.type⟩,
       ⟨env.nowIso, .info, "Unhandled event type: " ++ ev.type⟩] := by
  have ht : ev.type ∉ failureEventTypes := by
    rw [hty]
    decide
  simp [webhook, hv, ht, logPush, St.init, WebhookResponse.status]

/-- Witness for the amended C7. -/
theorem unknown_event_scenario_witness :
    (webhook envPlain St.init reqUnknown).2 = .received ∧
    (webhook envPlain St.init reqUnknown).2.status = 200 ∧
    (webhook envPlain St.init reqUnknown).1.trace = [] ∧
    (webhook envPlain St.init reqUnknown).1.logs =
      [⟨envPlain.nowIso, .info, "Received Stripe webhook: " ++ evUnknown.type⟩,
       ⟨envPlain.nowIso, .info, "Unhandled event type: " ++ evUnknown.type⟩] :=
  unknown_event_scenario envPlain reqUnknown evUnknown rfl rfl

/-- C9: with no configured secret the verification stage is exactly the
trusted JSON parse of the raw body, and when that parse fails the webhook
answers 400 with the underlying message and attempts no processing: no
sink runs, no mail is handed over, no record is attempted or created. -/
theorem unauthenticated_fallback (env : Env) (st : St) (req : Request) (m : String)
    (hs : env.secret = none) :
    verifyStage env req = req.parseResult ∧
    (req.parseResult = .error m →
      (webhook env st req).2 = .webhookError m ∧
      (webhook env st req).2.status = 400 ∧
      (webhook env st req).1.trace = st.trace ∧
      (webhook env st req).1.emails = st.emails ∧
      (webhook env st req).1.recordsAttempted = st.recordsAttempted ∧
      (webhook env st req).1.recordsCreated = st.recordsCreated) := by
  constructor
  · simp [verifyStage, hs]
  · intro hp
    simp [webhook, verifyStage, hs, hp, WebhookResponse.status]

/-- Witness for C9 at a malformed body with no secret configured. -/
theorem unauthenticated_fallback_witness :
    verifyStage envPlain ⟨"not json", none, .error "Unexpected token"⟩ =
      Request.parseResult ⟨"not json", none, .error "Unexpected token"⟩ ∧
    (Request.parseResult ⟨"not json", none, .error "Unexpected token"⟩ = .error "Unexpected token" →
      (webhook envPlain St.init ⟨"not json", none, .error "Unexpected token"⟩).2 =
          .webhookError "Unexpected token" ∧
      (webhook envPlain St.init ⟨"not json", none, .error "Unexpected token"⟩).2.status = 400 ∧
      (webhook envPlain St.init ⟨"not json", none, .error "Unexpected token"⟩).1.trace = St.init.trace ∧
      (webhook envPlain St.init ⟨"not json", none, .error "Unexpected token"⟩).1.emails = St.init.emails ∧
      (webhook envPlain St.init ⟨"not json", none, .error "Unexpected token"⟩).1.recordsAttempted = St.init.recordsAttempted ∧
      (webhook envPlain St.init ⟨"not json", none, .error "Unexpected token"⟩).1.recordsCreated = St.init.recordsCreated) :=
  unauthenticated_fallback envPlain St.init ⟨"not json", none, .error "Unexpected token"⟩
    "Unexpected token" rfl

/-- C10: in the test harness an email failure is not contained: the
handler answers 500 with the failure body carrying the underlying message,
logs the failure at error level, and never reaches the record-sink test:
no create call happens and no record is made. -/
theorem test_email_failure_aborts (env : Env) (st : St) (m : String)
    (he : env.emailOutcome = .error m) :
    (testHandler env st).2 = .failure m ∧
    (testHandler env st).2.status = 500 ∧
    (testHandler env st).1.recordsAttempted = st.recordsAttempted ∧
    (testHandler env st).1.recordsCreated = st.recordsCreated ∧
    (testHandler env st).1.logs.getLast? =
      some ⟨env.nowIso, .error, "Manual test failed: " ++ m⟩ := by
  simp [testHandler, he, TestResponse.status, getLast_logPush]

/-- Witness for C10 at a failing mailer. -/
theorem test_email_failure_aborts_witness :
    (testHandler { envPlain with emailOutcome := .error "smtp down" } St.init).2 =
        .failure "smtp down" ∧
    (testHandler { envPlain with emailOutcome := .error "smtp down" } St.init).2.status = 500 ∧
    (testHandler { envPlain with emailOutcome := .error "smtp down" } St.init).1.recordsAttempted =
        St.init.recordsAttempted ∧
    (testHandler { envPlain with emailOutcome := .error "smtp down" } St.init).1.recordsCreated =
        St.init.recordsCreated ∧
    (testHandler { envPlain with emailOutcome := .error "smtp down" } St.init).1.logs.getLast? =
      some ⟨{ envPlain with emailOutcome := .error "smtp down" }.nowIso, .error,
            "Manual test failed: " ++ "smtp down"⟩ :=
  test_email_failure_aborts { envPlain with emailOutcome := .error "smtp down" } St.init
    "smtp down" rfl

end StripeMonitor
